import Mathlib

/-!
Shallow embedding of `src/app.py`, the activity-dashboard pipeline:
record extraction from the uploaded JSON entries, timestamp
normalization, aggregate computation, word-cloud corpus, the two
guarded AI calls, and the raw-data preview.

Input model: per the documented input interface, an uploaded entry
optionally contains the string fields `time`, `header`, `title`,
`titleUrl`; an absent field is modelled as `none`.  `item.get(k)`
is `Option.getD`-style lookup.

Datetimes: `pd.to_datetime(..., errors="coerce")` applies a tolerant
element-wise parser, mapping `None` and unparsable strings to `NaT`.
The parser itself is a library routine, so the pipeline is
parameterized by an arbitrary `parse : String → Option DateTime`;
a parsed pandas datetime always carries an hour in 0..23 and a
weekday, captured by the `DateTime` structure below.
-/

/-- One entry of the uploaded JSON document (documented interface:
optional string fields). `none` models a missing key. -/
structure Entry where
  time : Option String
  header : Option String
  title : Option String
  titleUrl : Option String
deriving DecidableEq

/-- A successfully parsed timestamp: its calendar date (as an ordinal),
hour of day in 0..23 (`Series.dt.hour`), and weekday
(`Series.dt.day_name`), 0 = Monday .. 6 = Sunday. -/
structure DateTime where
  date : Int
  hour : Fin 24
  weekday : Fin 7
deriving DecidableEq

/-- One element of `records` as built by the extraction loop
(`src/app.py` lines 27-33): `[time, product, title, url]` with
defaults substituted for missing fields. -/
structure RawRecord where
  time : Option String
  product : String
  title : String
  url : String
deriving DecidableEq

/-- Loop body: `item.get("time")`, `item.get("header", "Unknown")`,
`item.get("title", "")`, `item.get("titleUrl", "")`. -/
def extractRecord (item : Entry) : RawRecord :=
  { time := item.time
    product := item.header.getD "Unknown"
    title := item.title.getD ""
    url := item.titleUrl.getD "" }

/-- The extraction loop: starts from the empty `records` list and
appends one record per entry, in input order. -/
def extractAll (data : List Entry) : List RawRecord :=
  data.foldl (fun records item => records ++ [extractRecord item]) []

/-- `pd.to_datetime(df["time"], errors="coerce")` on one cell:
`None ↦ NaT`, otherwise the tolerant parse (failure ↦ `NaT`). -/
def toDT (parse : String → Option DateTime) : Option String → Option DateTime
  | none => none
  | some s => parse s

/-- A row of `df` after `dropna(subset=["time"])` and the derived
columns (lines 36-42): the timestamp is now a concrete `DateTime`. -/
structure Row where
  time : DateTime
  product : String
  title : String
  url : String
deriving DecidableEq

/-- Derived column `df["date"]`. -/
def Row.date (r : Row) : Int := r.time.date

/-- Derived column `df["hour"]`. -/
def Row.hour (r : Row) : Nat := r.time.hour.val

/-- The fixed weekday order used by the chart (lines 68-69). -/
def weekdayNames : List String :=
  ["Monday", "Tuesday", "Wednesday", "Thursday", "Friday", "Saturday", "Sunday"]

/-- `Series.dt.day_name()` for one timestamp. -/
def dayName : Fin 7 → String
  | ⟨0, _⟩ => "Monday"
  | ⟨1, _⟩ => "Tuesday"
  | ⟨2, _⟩ => "Wednesday"
  | ⟨3, _⟩ => "Thursday"
  | ⟨4, _⟩ => "Friday"
  | ⟨5, _⟩ => "Saturday"
  | ⟨6, _⟩ => "Sunday"

/-- Derived column `df["day"]`. -/
def Row.day (r : Row) : String := dayName r.time.weekday

/-- `df` after `to_datetime` + `dropna(subset=["time"])` (lines 35-37):
rows whose `time` failed to parse (or was missing) are dropped, the
rest keep their parsed timestamp, in order. -/
def rowsOf (parse : String → Option DateTime) (data : List Entry) : List Row :=
  (extractAll data).filterMap fun r =>
    (toDT parse r.time).map fun d =>
      { time := d, product := r.product, title := r.title, url := r.url }

/-- Quick-stats metric `len(df)` (line 47). -/
def totalRecords (rows : List Row) : Nat := rows.length

/-- Quick-stats metric `df["product"].nunique()` (line 48): number of
distinct products. -/
def uniqueProducts (rows : List Row) : Nat := (rows.map Row.product).dedup.length

/-- Quick-stats date range `df["date"].min()`/`.max()` (line 49):
`none` models the `NaN → NaN` marker shown for an empty frame. -/
def dateSpan (rows : List Row) : Option (Int × Int) :=
  match (rows.map Row.date).min?, (rows.map Row.date).max? with
  | some lo, some hi => some (lo, hi)
  | _, _ => none

/-- `df["product"].value_counts()` (line 53): one `(product, count)`
pair per distinct product, sorted by descending count for display. -/
def productCounts (rows : List Row) : List (String × Nat) :=
  let prods := rows.map Row.product
  (prods.dedup.map fun p => (p, prods.count p)).insertionSort fun a b => b.2 ≤ a.2

/-- Modelled from the spec: the hour histogram (line 62) is drawn by
the external charting library, whose binning code is not in this
repository; per the spec it groups records by hour of day, one bucket
per integer 0-23, zero-filled for hours with no activity. -/
def hourCounts (rows : List Row) : List (Nat × Nat) :=
  (List.range 24).map fun h => (h, (rows.filter fun r => r.hour = h).length)

/-- Modelled from the spec: the weekday histogram (lines 67-71) is
drawn by the external charting library with the fixed category order
Monday..Sunday; per the spec it has exactly 7 buckets in that order,
zero-filled for weekdays with no activity. -/
def dayCounts (rows : List Row) : List (String × Nat) :=
  weekdayNames.map fun d => (d, (rows.filter fun r => r.day = d).length)

/-- Word-cloud corpus `" ".join(df["title"].dropna().tolist())`
(line 75).  The title column holds only strings (defaults were
substituted at extraction), so `dropna()` keeps every row. -/
def corpus (rows : List Row) : String :=
  String.intercalate " " (rows.map Row.title)

/-- Categorization sample `df["title"].dropna().head(20).tolist()`
(line 86): the first up-to-20 titles, `dropna()` again a no-op on the
all-string title column. -/
def sampleTitles (rows : List Row) : List String :=
  (rows.map Row.title).take 20

/-- Summary input `df[df["date"] == df["date"].max()].head(50)[["product","title"]]`
(line 109): rows of the most recent date, at most 50, as
(product, title) pairs.  On an empty frame `max()` is `NaN`, which
compares unequal to every date, selecting nothing. -/
def weekData (rows : List Row) : List (String × String) :=
  match (rows.map Row.date).max? with
  | none => []
  | some m => ((rows.filter fun r => r.date = m).take 50).map fun r => (r.product, r.title)

/-- Everything the page renders for one run: the three quick-stat
scalars, the three chart aggregates, the word-cloud corpus (and
whether the image block runs, line 76), the two optional AI blocks
(`none` = skipped; `Except.ok` = response shown; `Except.error` =
`st.error` message, lines 96-104 and 111-119), and the raw-data
preview `df.head(100)` (line 123). -/
structure Output where
  total : Nat
  uniqueProducts : Nat
  dateSpan : Option (Int × Int)
  productChart : List (String × Nat)
  hourChart : List (Nat × Nat)
  dayChart : List (String × Nat)
  corpus : String
  wordCloudShown : Bool
  aiCat : Option (Except String String)
  aiSum : Option (Except String String)
  preview : List Row

/-- The external text-generation service, as seen from each call site:
it receives the assembled sample and either returns response text or
raises (modelled as `Except.error`), which the surrounding
`try/except` turns into an error message. -/
def Output.nonAI (o : Output) :
    Nat × Nat × Option (Int × Int) × List (String × Nat) × List (Nat × Nat) ×
      List (String × Nat) × String × Bool × List Row :=
  (o.total, o.uniqueProducts, o.dateSpan, o.productChart, o.hourChart,
    o.dayChart, o.corpus, o.wordCloudShown, o.preview)

/-- The dashboard body for a given normalized frame:
both AI blocks run under `if api_key:` (lines 84, 107), so they are
attempted exactly when the key is non-empty; each is wrapped in its
own `try/except` whose failure is rendered as an error message. -/
def mkOutput (rows : List Row) (apiKey : String)
    (catSvc : List String → Except String String)
    (sumSvc : List (String × String) → Except String String) : Output :=
  { total := totalRecords rows
    uniqueProducts := uniqueProducts rows
    dateSpan := dateSpan rows
    productChart := productCounts rows
    hourChart := hourCounts rows
    dayChart := dayCounts rows
    corpus := corpus rows
    wordCloudShown := corpus rows != ""
    aiCat := if apiKey = "" then none else some (catSvc (sampleTitles rows))
    aiSum := if apiKey = "" then none else some (sumSvc (weekData rows))
    preview := rows.take 100 }

/-- One full run of the `if uploaded_file:` body on a parsed document. -/
def run (parse : String → Option DateTime) (data : List Entry) (apiKey : String)
    (catSvc : List String → Except String String)
    (sumSvc : List (String × String) → Except String String) : Output :=
  mkOutput (rowsOf parse data) apiKey catSvc sumSvc

/-- Following the spec's words, for comparison with `corpus`:
"concatenate the `title` field of every record that has a non-empty
title, space-separated, into one string, preserving record order". -/
def specCorpus (rows : List Row) : String :=
  String.intercalate " " ((rows.map Row.title).filter fun t => t ≠ "")

/-- Following the spec's words, for comparison with `sampleTitles`:
"up to the first 20 records (by current record order) with non-empty
titles", empty-titled records being skipped without consuming slots. -/
def specSampleTitles (rows : List Row) : List String :=
  ((rows.map Row.title).filter fun t => t ≠ "").take 20

/-! Concrete fixtures used by witnesses and counterexamples. -/

/-- Test timestamp parse function: recognizes the single timestamp
used in the concrete examples (2024-01-01 is a Monday). -/
def parse0 : String → Option DateTime := fun s =>
  if s = "2024-01-01T10:00:00Z" then
    some { date := 0, hour := 10, weekday := 0 }
  else none

def entryCats : Entry := ⟨some "2024-01-01T10:00:00Z", some "Search", some "cats", none⟩

def entryDogs : Entry := ⟨some "2024-01-01T10:00:00Z", some "Search", some "dogs", none⟩

def entryBad : Entry := ⟨some "bad-date", some "Search", some "x", none⟩

def entryBlank : Entry := ⟨some "2024-01-01T10:00:00Z", some "Search", some "", none⟩

def sampleData : List Entry := [entryCats, entryDogs, entryBad]

def svcCatOk : List String → Except String String := fun _ => Except.ok "[]"

def svcCatFail : List String → Except String String := fun _ => Except.error "boom"

def svcSumOk : List (String × String) → Except String String := fun _ => Except.ok "summary"

/-! Helper lemmas. -/

theorem extractAll_from (data : List Entry) (acc : List RawRecord) :
    data.foldl (fun records item => records ++ [extractRecord item]) acc
      = acc ++ data.map extractRecord := by
  induction data generalizing acc with
  | nil => simp
  | cons a l ih => simp [List.foldl_cons, ih]

/-- The append loop builds exactly the per-entry map, in input order. -/
theorem extractAll_eq_map (data : List Entry) :
    extractAll data = data.map extractRecord := by
  simpa using extractAll_from data []

theorem length_filterMap_eq_length_filter {α β : Type} (f : α → Option β) (l : List α) :
    (l.filterMap f).length = (l.filter fun a => (f a).isSome).length := by
  induction l with
  | nil => rfl
  | cons a l ih =>
    cases h : f a <;>
      simp [List.filterMap_cons, List.filter_cons, h, ih]

theorem filterMap_filter_isSome {α β : Type} (f : α → Option β) (l : List α) :
    (l.filter fun a => (f a).isSome).filterMap f = l.filterMap f := by
  induction l with
  | nil => rfl
  | cons a l ih =>
    cases h : f a <;>
      simp [List.filter_cons, List.filterMap_cons, h, ih]

theorem sum_indicator_zero {β : Type} [DecidableEq β] (ks : List β) (j : β)
    (hj : j ∉ ks) :
    (ks.map fun k => if j = k then (1 : Nat) else 0).sum = 0 := by
  induction ks with
  | nil => rfl
  | cons a ks ih =>
    simp only [List.map_cons, List.sum_cons]
    rw [if_neg fun e => hj (List.mem_cons.mpr (Or.inl e))]
    simpa using ih fun h => hj (List.mem_cons_of_mem _ h)

theorem sum_indicator_one {β : Type} [DecidableEq β] (ks : List β) (j : β)
    (hnd : ks.Nodup) (hj : j ∈ ks) :
    (ks.map fun k => if j = k then (1 : Nat) else 0).sum = 1 := by
  induction ks with
  | nil => cases hj
  | cons a ks ih =>
    simp only [List.map_cons, List.sum_cons]
    rcases List.mem_cons.mp hj with h | h
    · subst h
      rw [if_pos rfl, sum_indicator_zero ks j (List.nodup_cons.mp hnd).1]
    · rw [if_neg fun e => (List.nodup_cons.mp hnd).1 (by rw [← e]; exact h),
        ih (List.nodup_cons.mp hnd).2 h]

theorem sum_map_add_nat {β : Type} (ks : List β) (f g : β → Nat) :
    (ks.map fun k => f k + g k).sum = (ks.map f).sum + (ks.map g).sum := by
  induction ks with
  | nil => rfl
  | cons a ks ih =>
    simp only [List.map_cons, List.sum_cons, ih]
    omega

/-- Counting a list into disjoint buckets drawn from a duplicate-free
key list covering every element recovers the list's length. -/
theorem sum_bucket_lengths {α β : Type} [DecidableEq β] (key : α → β) (ks : List β)
    (hnd : ks.Nodup) (l : List α) (hmem : ∀ x ∈ l, key x ∈ ks) :
    (ks.map fun k => (l.filter fun x => key x = k).length).sum = l.length := by
  induction l with
  | nil => simp
  | cons a l ih =>
    have hsplit : ∀ k ∈ ks,
        ((a :: l).filter fun x => key x = k).length
          = (if key a = k then (1 : Nat) else 0)
            + (l.filter fun x => key x = k).length := by
      intro k _
      by_cases h : key a = k <;> simp [List.filter_cons, h]
      omega
    rw [List.map_congr_left hsplit, sum_map_add_nat,
      sum_indicator_one ks (key a) hnd (hmem a (List.mem_cons_self a l)),
      ih fun x hx => hmem x (List.mem_cons_of_mem _ hx)]
    simp [List.length_cons, Nat.add_comm]

theorem dayName_mem (w : Fin 7) : dayName w ∈ weekdayNames := by
  fin_cases w <;> decide

theorem weekdayNames_nodup : weekdayNames.Nodup := by decide

/-- `rowsOf` as a single `filterMap` over the input entries. -/
theorem rowsOf_eq_filterMap (parse : String → Option DateTime) (data : List Entry) :
    rowsOf parse data = data.filterMap fun e =>
      (toDT parse (extractRecord e).time).map fun d =>
        { time := d, product := (extractRecord e).product,
          title := (extractRecord e).title, url := (extractRecord e).url } := by
  unfold rowsOf
  rw [extractAll_eq_map, List.filterMap_map]
  rfl

/-- The number of surviving rows is the number of entries whose
timestamp parses. -/
theorem rowsOf_length (parse : String → Option DateTime) (data : List Entry) :
    (rowsOf parse data).length
      = (data.filter fun e => (toDT parse (extractRecord e).time).isSome).length := by
  rw [rowsOf_eq_filterMap, length_filterMap_eq_length_filter]
  have hp : (fun e : Entry =>
        ((toDT parse (extractRecord e).time).map fun d =>
          ({ time := d, product := (extractRecord e).product,
             title := (extractRecord e).title,
             url := (extractRecord e).url } : Row)).isSome)
      = fun e : Entry => (toDT parse (extractRecord e).time).isSome := by
    funext e
    cases toDT parse (extractRecord e).time <;> rfl
  rw [hp]

/-- Removing the entries with unparsable timestamps from the input
leaves the normalized frame unchanged. -/
theorem rowsOf_filter_parsable (parse : String → Option DateTime) (data : List Entry) :
    rowsOf parse (data.filter fun e => (toDT parse (extractRecord e).time).isSome)
      = rowsOf parse data := by
  rw [rowsOf_eq_filterMap, rowsOf_eq_filterMap]
  have hp : (fun e : Entry => (toDT parse (extractRecord e).time).isSome)
      = fun e : Entry =>
          ((toDT parse (extractRecord e).time).map fun d =>
            ({ time := d, product := (extractRecord e).product,
               title := (extractRecord e).title,
               url := (extractRecord e).url } : Row)).isSome := by
    funext e
    cases toDT parse (extractRecord e).time <;> rfl
  rw [hp, filterMap_filter_isSome]

/-! Claim theorems. -/

/-- C1: every entry whose `time` fails to parse is excluded from every
downstream computation (removing those entries changes no output at
all), the reported total record count equals exactly the number of
entries whose timestamps parsed successfully, and every row reaching
the aggregates carries a timestamp that parsed successfully. -/
theorem c1_unparsable_dropped (parse : String → Option DateTime) (data : List Entry)
    (apiKey : String) (catSvc : List String → Except String String)
    (sumSvc : List (String × String) → Except String String) :
    (run parse data apiKey catSvc sumSvc).total
        = (data.filter fun e => (toDT parse (extractRecord e).time).isSome).length
    ∧ run parse data apiKey catSvc sumSvc
        = run parse (data.filter fun e => (toDT parse (extractRecord e).time).isSome)
            apiKey catSvc sumSvc
    ∧ ∀ row ∈ rowsOf parse data, ∃ e ∈ data,
        toDT parse (extractRecord e).time = some row.time := by
  refine ⟨rowsOf_length parse data, ?_, ?_⟩
  · unfold run
    rw [rowsOf_filter_parsable]
  · intro row hrow
    rw [rowsOf_eq_filterMap] at hrow
    rcases List.mem_filterMap.mp hrow with ⟨e, he, hge⟩
    refine ⟨e, he, ?_⟩
    cases h : toDT parse (extractRecord e).time with
    | none => rw [h] at hge; cases hge
    | some d =>
      rw [h] at hge
      have h2 : Row.mk d (extractRecord e).product (extractRecord e).title
            (extractRecord e).url = row :=
        Option.some.inj hge
      rw [← h2]

theorem c1_witness :
    (run parse0 sampleData "" svcCatOk svcSumOk).total = 2
    ∧ ∃ e ∈ sampleData, toDT parse0 (extractRecord e).time
        = some { date := 0, hour := 10, weekday := 0 } := by
  have h := c1_unparsable_dropped parse0 sampleData "" svcCatOk svcSumOk
  constructor
  · rw [h.1]
    decide
  · have hm := h.2.2
      { time := { date := 0, hour := 10, weekday := 0 },
        product := "Search", title := "cats", url := "" } (by decide)
    exact hm

/-- C2: for every input record set, the hour aggregate has exactly 24
buckets in order 0..23, with zero count for every hour with no
activity, and the weekday aggregate has exactly 7 buckets in the fixed
order Monday through Sunday. -/
theorem c2_fixed_buckets (parse : String → Option DateTime) (data : List Entry) :
    ((hourCounts (rowsOf parse data)).map Prod.fst = List.range 24
      ∧ (hourCounts (rowsOf parse data)).length = 24
      ∧ ∀ h : Nat, h < 24 →
          ((rowsOf parse data).filter fun r => r.hour = h) = [] →
            (h, 0) ∈ hourCounts (rowsOf parse data))
    ∧ (dayCounts (rowsOf parse data)).map Prod.fst = weekdayNames
    ∧ (dayCounts (rowsOf parse data)).length = 7 := by
  refine ⟨⟨?_, ?_, ?_⟩, ?_, ?_⟩
  · rw [hourCounts, List.map_map]
    exact List.map_id (List.range 24)
  · rw [hourCounts, List.length_map, List.length_range]
  · intro h hlt hempty
    rw [hourCounts]
    refine List.mem_map.mpr ⟨h, List.mem_range.mpr hlt, ?_⟩
    rw [hempty]
    rfl
  · rw [dayCounts, List.map_map]
    exact List.map_id weekdayNames
  · rw [dayCounts, List.length_map]
    rfl

theorem c2_witness : (3, 0) ∈ hourCounts (rowsOf parse0 sampleData) :=
  (c2_fixed_buckets parse0 sampleData).1.2.2 3 (by decide) (by decide)

/-- Sum of the per-product display counts recovers the row count. -/
theorem sum_productCounts (rows : List Row) :
    ((productCounts rows).map Prod.snd).sum = rows.length := by
  unfold productCounts
  have hperm :=
    List.perm_insertionSort (fun a b : String × Nat => b.2 ≤ a.2)
      ((rows.map Row.product).dedup.map fun p => (p, (rows.map Row.product).count p))
  rw [(hperm.map Prod.snd).sum_eq, List.map_map]
  have hc := List.sum_map_count_dedup_eq_length (rows.map Row.product)
  simpa [Function.comp] using hc

/-- Sum of the 24 hour buckets recovers the row count. -/
theorem sum_hourCounts (rows : List Row) :
    ((hourCounts rows).map Prod.snd).sum = rows.length := by
  unfold hourCounts
  rw [List.map_map]
  have hb := sum_bucket_lengths Row.hour (List.range 24) (List.nodup_range 24) rows
    (fun r _ => List.mem_range.mpr r.time.hour.isLt)
  simpa [Function.comp] using hb

/-- Sum of the 7 weekday buckets recovers the row count. -/
theorem sum_dayCounts (rows : List Row) :
    ((dayCounts rows).map Prod.snd).sum = rows.length := by
  unfold dayCounts
  rw [List.map_map]
  have hb := sum_bucket_lengths Row.day weekdayNames weekdayNames_nodup rows
    (fun r _ => dayName_mem r.time.weekday)
  simpa [Function.comp] using hb

/-- C6: the per-product counts, the 24 per-hour counts, and the 7
per-weekday counts each sum to the total record count: the three
groupings each partition the normalized record set. -/
theorem c6_partitions (parse : String → Option DateTime) (data : List Entry) :
    ((productCounts (rowsOf parse data)).map Prod.snd).sum
        = totalRecords (rowsOf parse data)
    ∧ ((hourCounts (rowsOf parse data)).map Prod.snd).sum
        = totalRecords (rowsOf parse data)
    ∧ ((dayCounts (rowsOf parse data)).map Prod.snd).sum
        = totalRecords (rowsOf parse data) :=
  ⟨sum_productCounts (rowsOf parse data), sum_hourCounts (rowsOf parse data),
    sum_dayCounts (rowsOf parse data)⟩

/-- C3 counterexample: with two valid records titled "cats" and "",
`" ".join(df["title"].dropna())` keeps the empty title (its `dropna`
removes only nulls, and the title column holds only strings), so the
code's corpus is "cats " while the claimed corpus is "cats". -/
theorem c3_counterexample :
    corpus (rowsOf parse0 [entryCats, entryBlank]) = "cats "
    ∧ specCorpus (rowsOf parse0 [entryCats, entryBlank]) = "cats"
    ∧ corpus (rowsOf parse0 [entryCats, entryBlank])
        ≠ specCorpus (rowsOf parse0 [entryCats, entryBlank]) := by
  refine ⟨by decide, by decide, by decide⟩

/-- C3 (amended): the corpus is the space-separated concatenation of
the `title` fields of ALL records, in record order — empty titles are
included and contribute empty segments, not skipped.  It coincides
with the claimed non-empty-only corpus whenever every title is
non-empty, and it is the empty string when there are no records. -/
theorem c3_corpus_amended (parse : String → Option DateTime) (data : List Entry)
    (apiKey : String) (catSvc : List String → Except String String)
    (sumSvc : List (String × String) → Except String String) :
    (run parse data apiKey catSvc sumSvc).corpus
        = String.intercalate " " ((rowsOf parse data).map Row.title)
    ∧ ((∀ t ∈ (rowsOf parse data).map Row.title, t ≠ "") →
        (run parse data apiKey catSvc sumSvc).corpus = specCorpus (rowsOf parse data))
    ∧ (rowsOf parse data = [] → (run parse data apiKey catSvc sumSvc).corpus = "") := by
  refine ⟨rfl, ?_, ?_⟩
  · intro hne
    show corpus (rowsOf parse data) = specCorpus (rowsOf parse data)
    unfold corpus specCorpus
    rw [List.filter_eq_self.mpr fun t ht => by simpa using hne t ht]
  · intro hnil
    show corpus (rowsOf parse data) = ""
    rw [hnil]
    rfl

theorem c3_witness :
    (run parse0 [entryCats, entryDogs] "" svcCatOk svcSumOk).corpus
      = specCorpus (rowsOf parse0 [entryCats, entryDogs]) :=
  (c3_corpus_amended parse0 [entryCats, entryDogs] "" svcCatOk svcSumOk).2.1
    (by decide)

/-- C4 counterexample: `df["title"].dropna().head(20)` drops only
nulls, so an empty-string title is kept and consumes a sample slot:
with records titled "" and "cats" the code's sample is ["", "cats"],
while the claimed sample is ["cats"]. -/
theorem c4_counterexample :
    sampleTitles (rowsOf parse0 [entryBlank, entryCats]) = ["", "cats"]
    ∧ specSampleTitles (rowsOf parse0 [entryBlank, entryCats]) = ["cats"]
    ∧ sampleTitles (rowsOf parse0 [entryBlank, entryCats])
        ≠ specSampleTitles (rowsOf parse0 [entryBlank, entryCats]) := by
  refine ⟨by decide, by decide, by decide⟩

/-- C4 (amended): the categorization sample is the titles of the first
up-to-20 records in current record order, regardless of emptiness —
records with empty titles are included and consume slots.  It has at
most 20 elements, it is what the categorize call receives when a key
is present, and it coincides with the claimed non-empty-only sample
whenever every title is non-empty. -/
theorem c4_sample_amended (parse : String → Option DateTime) (data : List Entry)
    (apiKey : String) (catSvc : List String → Except String String)
    (sumSvc : List (String × String) → Except String String) :
    sampleTitles (rowsOf parse data) = ((rowsOf parse data).map Row.title).take 20
    ∧ (sampleTitles (rowsOf parse data)).length ≤ 20
    ∧ (apiKey ≠ "" →
        (run parse data apiKey catSvc sumSvc).aiCat
          = some (catSvc (sampleTitles (rowsOf parse data))))
    ∧ ((∀ t ∈ (rowsOf parse data).map Row.title, t ≠ "") →
        sampleTitles (rowsOf parse data) = specSampleTitles (rowsOf parse data)) := by
  refine ⟨rfl, ?_, ?_, ?_⟩
  · rw [sampleTitles, List.length_take]
    exact Nat.min_le_left _ _
  · intro hk
    show (mkOutput (rowsOf parse data) apiKey catSvc sumSvc).aiCat = _
    rw [mkOutput]
    simp only [if_neg hk]
  · intro hne
    unfold sampleTitles specSampleTitles
    rw [List.filter_eq_self.mpr fun t ht => by simpa using hne t ht]

theorem c4_witness :
    sampleTitles (rowsOf parse0 [entryCats, entryDogs])
      = specSampleTitles (rowsOf parse0 [entryCats, entryDogs]) :=
  (c4_sample_amended parse0 [entryCats, entryDogs] "" svcCatOk svcSumOk).2.2.2
    (by decide)

/-- C5: extraction substitutes the documented defaults for missing
fields — missing `header` becomes "Unknown", missing `title` and
`titleUrl` become the empty string, missing `time` becomes null — and
extraction is total (never raises): it yields a record for every
entry. -/
theorem c5_defaults (item : Entry) :
    (item.header = none → (extractRecord item).product = "Unknown")
    ∧ (item.title = none → (extractRecord item).title = "")
    ∧ (item.titleUrl = none → (extractRecord item).url = "")
    ∧ (item.time = none → (extractRecord item).time = none)
    ∧ (extractAll [item]).length = 1 := by
  refine ⟨?_, ?_, ?_, ?_, rfl⟩ <;>
    (intro h; simp [extractRecord, h])

theorem c5_witness :
    (extractRecord ⟨none, none, none, none⟩).product = "Unknown"
    ∧ (extractRecord ⟨none, none, none, none⟩).title = ""
    ∧ (extractRecord ⟨none, none, none, none⟩).url = ""
    ∧ (extractRecord ⟨none, none, none, none⟩).time = none :=
  ⟨(c5_defaults ⟨none, none, none, none⟩).1 rfl,
    (c5_defaults ⟨none, none, none, none⟩).2.1 rfl,
    (c5_defaults ⟨none, none, none, none⟩).2.2.1 rfl,
    (c5_defaults ⟨none, none, none, none⟩).2.2.2.1 rfl⟩

/-- C10: extraction produces exactly one record per input entry, in
input order, and every extracted record's product, title and url are
the (never-null) strings obtained by default substitution — only the
raw timestamp field can be null. -/
theorem c10_extraction_shape (data : List Entry) :
    (extractAll data).length = data.length
    ∧ extractAll data = data.map extractRecord
    ∧ ∀ item : Entry,
        (extractRecord item).product = item.header.getD "Unknown"
        ∧ (extractRecord item).title = item.title.getD ""
        ∧ (extractRecord item).url = item.titleUrl.getD ""
        ∧ (extractRecord item).time = item.time := by
  refine ⟨?_, extractAll_eq_map data, fun item => ⟨rfl, rfl, rfl, rfl⟩⟩
  rw [extractAll_eq_map]
  exact List.length_map data extractRecord

/-- C7: with zero valid records the pipeline reports total count 0,
distinct product count 0, the empty/undefined date-range marker, and
every aggregate and chart input is produced (as its empty value)
rather than raising — every stage below is a total function evaluated
on the empty frame. -/
theorem c7_empty_frame (parse : String → Option DateTime) (data : List Entry)
    (apiKey : String) (catSvc : List String → Except String String)
    (sumSvc : List (String × String) → Except String String)
    (h : rowsOf parse data = []) :
    (run parse data apiKey catSvc sumSvc).total = 0
    ∧ (run parse data apiKey catSvc sumSvc).uniqueProducts = 0
    ∧ (run parse data apiKey catSvc sumSvc).dateSpan = none
    ∧ (run parse data apiKey catSvc sumSvc).productChart = []
    ∧ (run parse data apiKey catSvc sumSvc).hourChart
        = ((List.range 24).map fun k => (k, 0))
    ∧ (run parse data apiKey catSvc sumSvc).dayChart
        = (weekdayNames.map fun d => (d, 0))
    ∧ (run parse data apiKey catSvc sumSvc).corpus = ""
    ∧ (run parse data apiKey catSvc sumSvc).wordCloudShown = false
    ∧ (run parse data apiKey catSvc sumSvc).preview = [] := by
  unfold run
  rw [h]
  exact ⟨rfl, rfl, rfl, rfl, rfl, rfl, rfl, rfl, rfl⟩

theorem c7_witness :
    (run parse0 [entryBad] "" svcCatOk svcSumOk).total = 0
    ∧ (run parse0 [entryBad] "" svcCatOk svcSumOk).uniqueProducts = 0
    ∧ (run parse0 [entryBad] "" svcCatOk svcSumOk).dateSpan = none :=
  ⟨(c7_empty_frame parse0 [entryBad] "" svcCatOk svcSumOk (by decide)).1,
    (c7_empty_frame parse0 [entryBad] "" svcCatOk svcSumOk (by decide)).2.1,
    (c7_empty_frame parse0 [entryBad] "" svcCatOk svcSumOk (by decide)).2.2.1⟩

/-- C8: with an empty credential neither AI call is attempted (both
blocks are skipped, so no error is shown either), and every non-AI
output — stats, charts, corpus, word-cloud flag, preview — is exactly
what any run with any credential and any services produces. -/
theorem c8_empty_key_skips_ai (parse : String → Option DateTime) (data : List Entry)
    (apiKey : String) (catSvc catSvc2 : List String → Except String String)
    (sumSvc sumSvc2 : List (String × String) → Except String String) :
    (run parse data "" catSvc sumSvc).aiCat = none
    ∧ (run parse data "" catSvc sumSvc).aiSum = none
    ∧ (run parse data "" catSvc sumSvc).nonAI
        = (run parse data apiKey catSvc2 sumSvc2).nonAI :=
  ⟨rfl, rfl, rfl⟩

/-- C9: when the categorize call fails, the failure is caught at its
own call site and surfaced as that block's error message; the
summarize call is still made with its own service result, and all
non-AI outputs are unaffected (they equal those of a run with any
other categorize service). -/
theorem c9_cat_failure_scoped (parse : String → Option DateTime) (data : List Entry)
    (apiKey : String) (catSvc : List String → Except String String)
    (sumSvc : List (String × String) → Except String String) (msg : String)
    (hk : apiKey ≠ "")
    (hfail : catSvc (sampleTitles (rowsOf parse data)) = Except.error msg) :
    (run parse data apiKey catSvc sumSvc).aiCat = some (Except.error msg)
    ∧ (run parse data apiKey catSvc sumSvc).aiSum
        = some (sumSvc (weekData (rowsOf parse data)))
    ∧ ∀ catSvc2 : List String → Except String String,
        (run parse data apiKey catSvc sumSvc).nonAI
          = (run parse data apiKey catSvc2 sumSvc).nonAI := by
  refine ⟨?_, ?_, fun _ => rfl⟩
  · show (mkOutput (rowsOf parse data) apiKey catSvc sumSvc).aiCat = _
    rw [mkOutput]
    simp only [if_neg hk, hfail]
  · show (mkOutput (rowsOf parse data) apiKey catSvc sumSvc).aiSum = _
    rw [mkOutput]
    simp only [if_neg hk]

theorem c9_witness :
    (run parse0 sampleData "k" svcCatFail svcSumOk).aiCat
        = some (Except.error "boom")
    ∧ (run parse0 sampleData "k" svcCatFail svcSumOk).aiSum
        = some (Except.ok "summary") := by
  have h := c9_cat_failure_scoped parse0 sampleData "k" svcCatFail svcSumOk "boom"
    (by decide) rfl
  exact ⟨h.1, h.2.1⟩
